import Mathlib

/-!
Verification of the `actix-redis-cluster` session middleware
(`src/session.rs`), shallowly embedded in Lean 4.

The embedding follows the source: `Inner.load`, `Inner.update` and the
middleware `call` are translated as pure functions over an explicit
per-request environment (the store's replies, the downstream handler, a
random-character stream and the serde codec are inputs).  External crates
(the `cookie` signed jar, `serde_json`, `rand`, `std::rc::Rc`) are not in
the repository; the few facts about them that the code relies on are
modelled from the spec, each marked `Modelled from the spec:` in its doc
comment.  Each store command the middleware sends is recorded in a trace,
so that claims about "exactly one SET" or "no write" are statements about
the trace.
-/

namespace ActixRedisCluster

/-- Session state: the flat string-key → string-value map collected from the
`state` iterator (`HashMap<String, String>` in the source). -/
abbrev SessionState := List (String × String)

/-- `SameSite` policy of the `cookie` crate (`Strict | Lax | None`). -/
inductive SameSite where
  | strict
  | lax
  | nonePolicy
deriving DecidableEq, Repr

/-- Modelled from the spec: the signing key held by `cookie::Key`
(`from_master` derives it from the ≥32-byte master secret; the crate is
not in `src/`, only its use). -/
structure SignKey where
  data : List Nat
deriving DecidableEq, Repr

/-- Modelled from the spec: the keyed-hash signature ("SignedCookieCodec")
of a cookie value under the process secret.  Any concrete keyed function
serves the model; claims only branch on whether the stored tag equals the
recomputed one. -/
def macOf (k : SignKey) (v : String) : Nat :=
  v.toList.foldl (fun a c => a * 31 + c.toNat) 7 + k.data.foldl (· + ·) 0

/-- A raw cookie on the incoming request: name, carried value and the
signature tag the client presented. -/
structure RawCookie where
  name : String
  value : String
  tag : Nat
deriving DecidableEq, Repr

/-- Modelled from the spec: `jar.signed(&key).get(&name)` — the signed jar
yields the unsigned value only when the signature verifies, otherwise
nothing (§4.1: invalid is treated identically to absent). -/
def verifySigned (k : SignKey) (c : RawCookie) : Option String :=
  if c.tag = macOf k c.value then some c.value else none

/-- The attributes `Inner::update` sets on a freshly minted cookie
(`Cookie::new` plus the `set_*` calls in the source). -/
structure CookieAttrs where
  name : String
  value : String
  path : String
  secure : Bool
  httpOnly : Bool
  domain : Option String
  maxAge : Option Int
  sameSite : Option SameSite
deriving DecidableEq, Repr

/-- A cookie as the signed jar emits it in its delta: the attributes plus
the signature over the value. -/
structure SignedCookie where
  attrs : CookieAttrs
  tag : Nat
deriving DecidableEq, Repr

/-- Modelled from the spec: `jar.signed(&key).add(cookie)` signs the value
with the secret; the jar's delta then holds exactly this one cookie. -/
def signCookie (k : SignKey) (c : CookieAttrs) : SignedCookie :=
  { attrs := c, tag := macOf k c.value }

/-- The store-backend variant (`enum Redis` in the source): a single-node
actor or a cluster actor, each started from a connection address. -/
inductive Redis where
  | redis (addr : String)
  | redisCluster (addr : String)
deriving DecidableEq, Repr

/-- The shared middleware configuration (`struct Inner` in the source). -/
structure Inner where
  key : SignKey
  ttl : String
  addr : Redis
  name : String
  path : String
  domain : Option String
  secure : Bool
  maxAge : Option Int
  sameSite : Option SameSite
deriving Repr

/-- A store command sent through `Redis::send` during one request:
`Get { key }` or `Set { key, value, expiration: Ex ttl }`. -/
inductive StoreCmd where
  | get (key : String)
  | set (key : String) (value : String) (expiration : String)
deriving DecidableEq, Repr

/-- Whether a store command is a SET. -/
def StoreCmd.isSet : StoreCmd → Bool
  | .get _ => false
  | .set _ _ _ => true

/-- The reply the environment gives to the load phase's GET: stored bytes,
absent key, a redis-level error, or a mailbox (transport) error. -/
inductive GetReply where
  | found (s : String)
  | absent
  | storeErr
  | transportErr
deriving DecidableEq, Repr

/-- The reply the environment gives to the update phase's SET. -/
inductive SetReply where
  | ack
  | storeErr
  | transportErr
deriving DecidableEq, Repr

/-- The error values a request can end with: `error::ErrorInternalServerError`
wrapping a redis error, an actix `MailboxError` converted via `From`, and a
`serde_json` encode error converted via `Into`. -/
inductive SessionError where
  | internalServer
  | mailbox
  | serde
deriving DecidableEq, Repr

/-- The HTTP status of the error outcome.  `ErrorInternalServerError` is 500
by construction; `MailboxError` and `serde_json::Error` reach actix through
their `ResponseError` impls, whose default status is 500. -/
def SessionError.status : SessionError → Nat
  | .internalServer => 500
  | .mailbox => 500
  | .serde => 500

/-- Is the request outcome an internal-server-error (a 500 error)? -/
def isInternalErrorOutcome (r : Except SessionError α) : Bool :=
  match r with
  | .error e => e.status == 500
  | .ok _ => false

/-- The downstream response as far as this middleware observes it: an opaque
body and the list of `Set-Cookie` header values. -/
structure Response where
  body : String
  setCookies : List SignedCookie
deriving DecidableEq, Repr

/-- Modelled from the spec: the `SessionCodec` (serde_json, not in `src/`):
`from_slice` may fail (malformed payload), `to_string` may fail (encode
error). -/
structure Codec where
  decode : String → Option SessionState
  encode : SessionState → Except Unit String

/-- The incoming request: `req.cookies()` either fails to parse (`Err`) or
yields the cookie list. -/
structure Request where
  cookies : Option (List RawCookie)
deriving DecidableEq, Repr

/-- The 62 characters of `rand`'s `Alphanumeric` distribution. -/
def alphanumericChars : List Char :=
  "ABCDEFGHIJKLMNOPQRSTUVWXYZabcdefghijklmnopqrstuvwxyz0123456789".toList

/-- Modelled from the spec: one draw of `OsRng.sample(Alphanumeric)` — the
environment supplies which of the 62 characters comes out. -/
def sampleAlphanumeric (r : Fin 62) : Char :=
  alphanumericChars.getD r.val 'A'

/-- The fresh session id minted in `Inner::update`:
`iter::repeat(()).map(|()| OsRng.sample(Alphanumeric)).take(32).collect()`,
with the OS randomness supplied as a stream of draws. -/
def mintId (rng : Nat → Fin 62) : String :=
  String.mk ((List.range 32).map fun i => sampleAlphanumeric (rng i))

/-- The per-request environment: everything outside the middleware that the
request interacts with — the store's replies, the downstream handler
(returning the reported change, if any, and its response), the random
stream and the codec. -/
structure Env where
  getReply : GetReply
  setReply : SetReply
  handler : Option SessionState → Option SessionState × Response
  rng : Nat → Fin 62
  codec : Codec

/-- The first request cookie whose name matches the configured one — the
cookie the `for` loop in `Inner::load` stops at (`none` when `req.cookies()`
failed or no cookie matches). -/
def cookieLookup (inner : Inner) (req : Request) : Option RawCookie :=
  req.cookies.bind (List.find? fun c => c.name == inner.name)

/-- `Inner::load`: scan the request cookies for the configured name; on the
first match, verify the signature; if it verifies, GET the stored payload
under the carried id and decode it.  Returns the load outcome paired with
the trace of store commands sent. -/
def Inner.load (inner : Inner) (env : Env) (req : Request) :
    Except SessionError (Option (SessionState × String)) × List StoreCmd :=
  match cookieLookup inner req with
  | none => (Except.ok none, [])
  | some c =>
    match verifySigned inner.key c with
    | none => (Except.ok none, [])
    | some value =>
      (match env.getReply with
       | .found s =>
         match env.codec.decode s with
         | some val => Except.ok (some (val, value))
         | none => Except.ok none
       | .absent => Except.ok none
       | .storeErr => Except.error SessionError.internalServer
       | .transportErr => Except.error SessionError.mailbox,
       [StoreCmd.get value])

/-- The cookie `Inner::update` prepares when no existing id is available:
name and value, configured path, configured secure flag, http-only always
true, then the optional domain, max-age and same-site attributes. -/
def freshCookie (inner : Inner) (value : String) : CookieAttrs :=
  { name := inner.name
    value := value
    path := inner.path
    secure := inner.secure
    httpOnly := true
    domain := inner.domain
    maxAge := inner.maxAge
    sameSite := inner.sameSite }

/-- `Inner::update`: reuse the load-phase id if there is one (no jar),
otherwise mint a 32-character id and sign a fresh cookie into a jar; encode
the final state (an encode error fails the request with no write); SET the
body under the id with the configured TTL; on ack, append the jar's delta
(the one fresh cookie, if any) as `Set-Cookie` headers; on a store error,
fail with an internal server error. -/
def Inner.update (inner : Inner) (env : Env) (res : Response)
    (state : SessionState) (value : Option String) :
    Except SessionError Response × List StoreCmd :=
  let minted :=
    match value with
    | some v => (v, (none : Option SignedCookie))
    | none =>
      let v := mintId env.rng
      (v, some (signCookie inner.key (freshCookie inner v)))
  match env.codec.encode state with
  | .error _ => (Except.error SessionError.serde, [])
  | .ok body =>
    (match env.setReply with
     | .ack =>
       Except.ok { res with
         setCookies := res.setCookies ++
           (match minted.2 with
            | some sc => [sc]
            | none => []) }
     | .storeErr => Except.error SessionError.internalServer
     | .transportErr => Except.error SessionError.mailbox,
     [StoreCmd.set minted.1 body inner.ttl])

/-- `RedisSessionMiddleware::call`: run the load phase; on its error the
request fails without invoking the handler; otherwise inject the loaded
state (if any) and run the handler; if the handler reports a change, run
the update phase with the loaded id, else pass the response through.  The
second component is the trace of store commands sent on behalf of this
request. -/
def RedisSessionMiddleware.call (inner : Inner) (env : Env) (req : Request) :
    Except SessionError Response × List StoreCmd :=
  match inner.load env req with
  | (Except.error e, cmds) => (Except.error e, cmds)
  | (Except.ok st, cmds) =>
    let value := st.map (·.2)
    let injected := st.map (·.1)
    match env.handler injected with
    | (none, res) => (Except.ok res, cmds)
    | (some newState, res) =>
      let (r, cmds2) := inner.update env res newState value
      (r, cmds ++ cmds2)

/-- The precondition of the "no session" load outcome: the request carries
no cookie of the configured name (cookie header unparseable, or no name
match), or the first matching cookie fails signature verification. -/
def noUsableCookie (inner : Inner) (req : Request) : Bool :=
  match cookieLookup inner req with
  | none => true
  | some c => (verifySigned inner.key c).isNone

/-- Modelled from the spec: `cookie::Key::from_master` ("signing secret
(≥32 bytes, else construction fails)"; the source's doc comment:
"Constructor panics if key length is less than 32 bytes").  A panic is
modelled as `none`. -/
def Key.from_master (key : List Nat) : Option SignKey :=
  if key.length < 32 then none else some ⟨key⟩

/-- Modelled from the spec: `std::rc::Rc` strong-count semantics needed by
the builder methods — a shared cell with its live reference count;
`Rc::get_mut` yields the value only when the count is exactly one. -/
structure RcInner where
  count : Nat
  value : Inner

/-- `Rc::get_mut`: mutable access succeeds only for a uniquely owned `Rc`. -/
def Rc.get_mut (r : RcInner) : Option Inner :=
  if r.count = 1 then some r.value else none

/-- `RedisSession(Rc<Inner>)`: the middleware factory. -/
structure RedisSession where
  inner : RcInner

/-- `RedisSession::new`: start a single-node redis actor at `addr` and build
the default configuration; `Key::from_master` panics (`none`) on a short
secret. -/
def RedisSession.new (addr : String) (key : List Nat) : Option RedisSession :=
  (Key.from_master key).map fun k =>
    { inner :=
      { count := 1
        value :=
          { key := k
            ttl := "7200"
            addr := Redis.redis addr
            name := "actix-session"
            path := "/"
            domain := none
            secure := false
            maxAge := some (7 * 86400)
            sameSite := none } } }

/-- `RedisSession::new_cluster`: same defaults, with a cluster actor. -/
def RedisSession.new_cluster (addr : String) (key : List Nat) :
    Option RedisSession :=
  (Key.from_master key).map fun k =>
    { inner :=
      { count := 1
        value :=
          { key := k
            ttl := "7200"
            addr := Redis.redisCluster addr
            name := "actix-session"
            path := "/"
            domain := none
            secure := false
            maxAge := some (7 * 86400)
            sameSite := none } } }

/-- `RedisSession::ttl`: `Rc::get_mut(&mut self.0).unwrap().ttl = format!("{}", ttl)`;
the unwrap panics (`none`) when the `Rc` is shared. -/
def RedisSession.ttl (s : RedisSession) (t : Int) : Option RedisSession :=
  (Rc.get_mut s.inner).map fun v =>
    { inner := { count := s.inner.count, value := { v with ttl := toString t } } }

/-- `RedisSession::cookie_name`. -/
def RedisSession.cookie_name (s : RedisSession) (n : String) :
    Option RedisSession :=
  (Rc.get_mut s.inner).map fun v =>
    { inner := { count := s.inner.count, value := { v with name := n } } }

/-- `RedisSession::cookie_path`. -/
def RedisSession.cookie_path (s : RedisSession) (p : String) :
    Option RedisSession :=
  (Rc.get_mut s.inner).map fun v =>
    { inner := { count := s.inner.count, value := { v with path := p } } }

/-- `RedisSession::cookie_domain`. -/
def RedisSession.cookie_domain (s : RedisSession) (d : String) :
    Option RedisSession :=
  (Rc.get_mut s.inner).map fun v =>
    { inner := { count := s.inner.count, value := { v with domain := some d } } }

/-- `RedisSession::cookie_secure`. -/
def RedisSession.cookie_secure (s : RedisSession) (b : Bool) :
    Option RedisSession :=
  (Rc.get_mut s.inner).map fun v =>
    { inner := { count := s.inner.count, value := { v with secure := b } } }

/-- `RedisSession::cookie_max_age`. -/
def RedisSession.cookie_max_age (s : RedisSession) (m : Int) :
    Option RedisSession :=
  (Rc.get_mut s.inner).map fun v =>
    { inner := { count := s.inner.count, value := { v with maxAge := some m } } }

/-- `RedisSession::cookie_same_site`. -/
def RedisSession.cookie_same_site (s : RedisSession) (ss : SameSite) :
    Option RedisSession :=
  (Rc.get_mut s.inner).map fun v =>
    { inner := { count := s.inner.count, value := { v with sameSite := some ss } } }

/-! Concrete fixtures used by the witness and counterexample theorems. -/

/-- A 32-byte test secret. -/
def testKey : SignKey := ⟨List.replicate 32 1⟩

/-- A configuration with the constructor defaults and the test secret. -/
def testInner : Inner :=
  { key := testKey
    ttl := "7200"
    addr := Redis.redis "127.0.0.1:6379"
    name := "actix-session"
    path := "/"
    domain := none
    secure := false
    maxAge := some (7 * 86400)
    sameSite := none }

/-- A codec whose decode always fails and whose encode yields `"body"`. -/
def badDecodeCodec : Codec :=
  { decode := fun _ => none, encode := fun _ => Except.ok "body" }

/-- A codec that decodes to a one-entry map and encodes to `"body"`. -/
def okCodec : Codec :=
  { decode := fun _ => some [("user", "42")], encode := fun _ => Except.ok "body" }

/-- A codec whose encode always fails. -/
def badEncodeCodec : Codec :=
  { decode := fun _ => some [], encode := fun _ => Except.error () }

/-- A handler that always reports the changed state `[("user", "42")]`. -/
def changedHandler : Option SessionState → Option SessionState × Response :=
  fun _ => (some [("user", "42")], { body := "resp", setCookies := [] })

/-- A handler that reports no change. -/
def unchangedHandler : Option SessionState → Option SessionState × Response :=
  fun _ => (none, { body := "resp", setCookies := [] })

/-- A deterministic random stream: every draw is the first alphanumeric
character. -/
def testRng : Nat → Fin 62 := fun _ => 0

/-- A correctly signed request cookie carrying the id `"oldid"`. -/
def goodCookie : RawCookie :=
  { name := "actix-session", value := "oldid", tag := macOf testKey "oldid" }

/-- A request whose only cookie is the signed `goodCookie`. -/
def goodReq : Request := { cookies := some [goodCookie] }

/-- A request cookie of the configured name whose signature does not
verify. -/
def badTagCookie : RawCookie :=
  { name := "actix-session", value := "oldid", tag := macOf testKey "oldid" + 1 }

/-- A request whose cookie list is present but empty. -/
def emptyReq : Request := { cookies := some [] }

/-- A baseline environment: store has the blob `"blob"`, SET acks, handler
reports a change, codec decodes and encodes successfully. -/
def baseEnv : Env :=
  { getReply := GetReply.found "blob"
    setReply := SetReply.ack
    handler := changedHandler
    rng := testRng
    codec := okCodec }

/-! Helper lemmas shared by the claim theorems. -/

/-- The load phase sends no SET: its trace is empty or a single GET. -/
theorem load_trace_no_set (inner : Inner) (env : Env) (req : Request) :
    ∀ cmd ∈ (inner.load env req).2, cmd.isSet = false := by
  unfold Inner.load
  cases hc : cookieLookup inner req with
  | none => simp
  | some c =>
    cases hv : verifySigned inner.key c with
    | none => simp [hv]
    | some v => cases env.getReply <;> simp [hv, StoreCmd.isSet]

/-- With no usable cookie the load phase yields no session, no error and an
empty trace. -/
theorem noUsableCookie_load (inner : Inner) (env : Env) (req : Request)
    (h : noUsableCookie inner req = true) :
    inner.load env req = (Except.ok none, []) := by
  unfold noUsableCookie at h
  cases hc : cookieLookup inner req with
  | none => simp [Inner.load, hc]
  | some c =>
    rw [hc] at h
    simp only [] at h
    cases hv : verifySigned inner.key c with
    | none => simp [Inner.load, hc, hv]
    | some v => simp [hv] at h

/-- Every draw of the alphanumeric distribution is an alphanumeric
character. -/
theorem sampleAlphanumeric_isAlphanum (r : Fin 62) :
    (sampleAlphanumeric r).isAlphanum = true := by revert r; decide

/-- A minted session id has exactly 32 characters. -/
theorem mintId_length (rng : Nat → Fin 62) : (mintId rng).length = 32 := by
  simp [mintId, String.length]

/-- Every character of a minted session id is alphanumeric. -/
theorem mintId_isAlphanum (rng : Nat → Fin 62) :
    ∀ ch ∈ (mintId rng).data, ch.isAlphanum = true := by
  intro ch hch
  simp only [mintId, List.mem_map] at hch
  obtain ⟨i, -, rfl⟩ := hch
  exact sampleAlphanumeric_isAlphanum (rng i)

/-- C9: for every signing secret shorter than 32 bytes, constructing the
middleware via `RedisSession::new` or `RedisSession::new_cluster` fails at
construction time (the `Key::from_master` panic, modelled as `none`)
instead of producing a usable middleware instance. -/
theorem short_secret_construction_fails (addr : String) (key : List Nat)
    (h : key.length < 32) :
    RedisSession.new addr key = none
    ∧ RedisSession.new_cluster addr key = none := by
  unfold RedisSession.new RedisSession.new_cluster Key.from_master
  rw [if_pos h]
  simp

/-- C9 witness: a 31-byte secret makes both constructors fail. -/
theorem short_secret_construction_fails_witness :
    (List.replicate 31 (0 : Nat)).length < 32
    ∧ RedisSession.new "127.0.0.1:6379" (List.replicate 31 0) = none
    ∧ RedisSession.new_cluster "127.0.0.1:6379" (List.replicate 31 0) = none :=
  ⟨by decide,
   short_secret_construction_fails "127.0.0.1:6379" (List.replicate 31 0)
     (by decide)⟩

/-- C10: each configuration builder method (`ttl`, `cookie_name`,
`cookie_path`, `cookie_domain`, `cookie_secure`, `cookie_max_age`,
`cookie_same_site`) mutates exactly its one field when the shared `Rc` has
a single live reference, and panics (the `Rc::get_mut(..).unwrap()`,
modelled as `none`) when the reference count exceeds one. -/
theorem builder_methods_update_one_field (s : RedisSession) (t : Int)
    (nm pth dom : String) (sec : Bool) (ma : Int) (ss : SameSite) :
    (s.inner.count = 1 →
      s.ttl t = some ⟨⟨1, { s.inner.value with ttl := toString t }⟩⟩
      ∧ s.cookie_name nm = some ⟨⟨1, { s.inner.value with name := nm }⟩⟩
      ∧ s.cookie_path pth = some ⟨⟨1, { s.inner.value with path := pth }⟩⟩
      ∧ s.cookie_domain dom
          = some ⟨⟨1, { s.inner.value with domain := some dom }⟩⟩
      ∧ s.cookie_secure sec = some ⟨⟨1, { s.inner.value with secure := sec }⟩⟩
      ∧ s.cookie_max_age ma
          = some ⟨⟨1, { s.inner.value with maxAge := some ma }⟩⟩
      ∧ s.cookie_same_site ss
          = some ⟨⟨1, { s.inner.value with sameSite := some ss }⟩⟩)
    ∧ (1 < s.inner.count →
      s.ttl t = none ∧ s.cookie_name nm = none ∧ s.cookie_path pth = none
      ∧ s.cookie_domain dom = none ∧ s.cookie_secure sec = none
      ∧ s.cookie_max_age ma = none ∧ s.cookie_same_site ss = none) := by
  constructor
  · intro h
    have hg : Rc.get_mut s.inner = some s.inner.value := by
      simp [Rc.get_mut, h]
    refine ⟨?_, ?_, ?_, ?_, ?_, ?_, ?_⟩ <;>
      simp [RedisSession.ttl, RedisSession.cookie_name, RedisSession.cookie_path,
        RedisSession.cookie_domain, RedisSession.cookie_secure,
        RedisSession.cookie_max_age, RedisSession.cookie_same_site, hg, h]
  · intro h
    have hg : Rc.get_mut s.inner = none := by
      simp only [Rc.get_mut, if_neg (by omega : ¬ s.inner.count = 1)]
    refine ⟨?_, ?_, ?_, ?_, ?_, ?_, ?_⟩ <;>
      simp [RedisSession.ttl, RedisSession.cookie_name, RedisSession.cookie_path,
        RedisSession.cookie_domain, RedisSession.cookie_secure,
        RedisSession.cookie_max_age, RedisSession.cookie_same_site, hg]

/-- C10 witness: on a uniquely owned session the `ttl` builder rewrites
only the `ttl` field; on a session whose `Rc` count is 2 it panics. -/
theorem builder_methods_update_one_field_witness :
    ((1 : Nat) = 1
      ∧ (RedisSession.mk ⟨1, testInner⟩).ttl 60
          = some ⟨⟨1, { testInner with ttl := toString (60 : Int) }⟩⟩)
    ∧ (1 < (2 : Nat)
      ∧ (RedisSession.mk ⟨2, testInner⟩).ttl 60 = none) :=
  ⟨⟨rfl,
    ((builder_methods_update_one_field ⟨⟨1, testInner⟩⟩ 60 "n" "/p" "d" true 5
        SameSite.lax).1 rfl).1⟩,
   ⟨by decide,
    ((builder_methods_update_one_field ⟨⟨2, testInner⟩⟩ 60 "n" "/p" "d" true 5
        SameSite.lax).2 (by decide)).1⟩⟩

/-- C2: on a request with no cookie of the configured name (or an
unverifiable one) whose handler reports a changed session, the middleware
sends exactly one store SET, keyed by the freshly minted id and carrying
the configured TTL; the minted id has exactly 32 alphanumeric characters;
and when the SET acks, exactly one `Set-Cookie` header carrying the signed
id is appended to the response. -/
theorem new_session_minting (inner : Inner) (env : Env) (req : Request)
    (st : SessionState) (res : Response) (body : String)
    (hc : noUsableCookie inner req = true)
    (hh : env.handler none = (some st, res))
    (he : env.codec.encode st = Except.ok body) :
    (RedisSessionMiddleware.call inner env req).2
        = [StoreCmd.set (mintId env.rng) body inner.ttl]
    ∧ (mintId env.rng).length = 32
    ∧ (∀ ch ∈ (mintId env.rng).data, ch.isAlphanum = true)
    ∧ (env.setReply = SetReply.ack →
        (RedisSessionMiddleware.call inner env req).1
          = Except.ok { res with setCookies := res.setCookies
              ++ [signCookie inner.key (freshCookie inner (mintId env.rng))] }) := by
  have hl := noUsableCookie_load inner env req hc
  refine ⟨?_, mintId_length env.rng, mintId_isAlphanum env.rng, ?_⟩
  · simp [RedisSessionMiddleware.call, hl, hh, Inner.update, he]
  · intro hs
    simp [RedisSessionMiddleware.call, hl, hh, Inner.update, he, hs]

/-- C2 witness: request with an empty cookie list, handler sets
`user = 42`, store acks: one SET under the minted id, and the signed fresh
cookie is the one `Set-Cookie` of the response. -/
theorem new_session_minting_witness :
    noUsableCookie testInner emptyReq = true
    ∧ baseEnv.handler none
        = (some [("user", "42")], { body := "resp", setCookies := [] })
    ∧ baseEnv.codec.encode [("user", "42")] = Except.ok "body"
    ∧ baseEnv.setReply = SetReply.ack
    ∧ (RedisSessionMiddleware.call testInner baseEnv emptyReq).2
        = [StoreCmd.set (mintId testRng) "body" "7200"]
    ∧ (RedisSessionMiddleware.call testInner baseEnv emptyReq).1
        = Except.ok
            { body := "resp"
              setCookies :=
                [signCookie testKey (freshCookie testInner (mintId testRng))] } := by
  have h := new_session_minting testInner baseEnv emptyReq [("user", "42")]
    { body := "resp", setCookies := [] } "body" (by decide) rfl rfl
  exact ⟨by decide, rfl, rfl, rfl, h.1, by simpa using h.2.2.2 rfl⟩

/-- C3: on a request whose cookie verified and whose stored payload was
present and decoded, a reported change makes the middleware GET and then
SET under the same id carried by the cookie, and the response passes
through with no `Set-Cookie` appended. -/
theorem reuse_existing_id (inner : Inner) (env : Env) (req : Request)
    (c : RawCookie) (v s : String) (st newState : SessionState)
    (res : Response) (body : String)
    (hc : cookieLookup inner req = some c)
    (hv : verifySigned inner.key c = some v)
    (hg : env.getReply = GetReply.found s)
    (hd : env.codec.decode s = some st)
    (hh : env.handler (some st) = (some newState, res))
    (he : env.codec.encode newState = Except.ok body)
    (hs : env.setReply = SetReply.ack) :
    RedisSessionMiddleware.call inner env req
      = (Except.ok res, [StoreCmd.get v, StoreCmd.set v body inner.ttl]) := by
  simp [RedisSessionMiddleware.call, Inner.load, Inner.update,
    hc, hv, hg, hd, hh, he, hs]

/-- C3 witness: signed cookie carrying `"oldid"`, stored blob decodes,
handler changes the state, store acks: GET and SET under `"oldid"`, and the
handler's response comes back untouched. -/
theorem reuse_existing_id_witness :
    cookieLookup testInner goodReq = some goodCookie
    ∧ verifySigned testInner.key goodCookie = some "oldid"
    ∧ baseEnv.getReply = GetReply.found "blob"
    ∧ baseEnv.codec.decode "blob" = some [("user", "42")]
    ∧ baseEnv.handler (some [("user", "42")])
        = (some [("user", "42")], { body := "resp", setCookies := [] })
    ∧ baseEnv.codec.encode [("user", "42")] = Except.ok "body"
    ∧ baseEnv.setReply = SetReply.ack
    ∧ RedisSessionMiddleware.call testInner baseEnv goodReq
        = (Except.ok { body := "resp", setCookies := [] },
           [StoreCmd.get "oldid", StoreCmd.set "oldid" "body" "7200"]) :=
  ⟨by decide, by decide, rfl, rfl, rfl, rfl, rfl,
   reuse_existing_id testInner baseEnv goodReq goodCookie "oldid" "blob"
     [("user", "42")] [("user", "42")] { body := "resp", setCookies := [] }
     "body" (by decide) (by decide) rfl rfl rfl rfl rfl⟩

/-- C4: whenever the handler reports no change, the response passes through
exactly as the handler produced it and no store SET is sent, whether or not
a session was loaded. -/
theorem no_change_passthrough (inner : Inner) (env : Env) (req : Request)
    (st : Option (SessionState × String)) (cmds : List StoreCmd)
    (res : Response)
    (hl : inner.load env req = (Except.ok st, cmds))
    (hh : env.handler (st.map (·.1)) = (none, res)) :
    (RedisSessionMiddleware.call inner env req).1 = Except.ok res
    ∧ ∀ cmd ∈ (RedisSessionMiddleware.call inner env req).2,
        cmd.isSet = false := by
  constructor
  · simp [RedisSessionMiddleware.call, hl, hh]
  · intro cmd hcmd
    have hns := load_trace_no_set inner env req
    rw [hl] at hns
    simp [RedisSessionMiddleware.call, hl, hh] at hcmd
    exact hns cmd hcmd

/-- C4 witness: a loaded session whose handler reports no change: the
response is the handler's and the trace holds no SET. -/
theorem no_change_passthrough_witness :
    Inner.load testInner { baseEnv with handler := unchangedHandler } goodReq
        = (Except.ok (some ([("user", "42")], "oldid")), [StoreCmd.get "oldid"])
    ∧ (some ([("user", "42")], "oldid")).map (·.1) = some [("user", "42")]
    ∧ unchangedHandler (some [("user", "42")])
        = (none, { body := "resp", setCookies := [] })
    ∧ (RedisSessionMiddleware.call testInner
        { baseEnv with handler := unchangedHandler } goodReq).1
        = Except.ok { body := "resp", setCookies := [] }
    ∧ ∀ cmd ∈ (RedisSessionMiddleware.call testInner
        { baseEnv with handler := unchangedHandler } goodReq).2,
        cmd.isSet = false := by
  have h := no_change_passthrough testInner
    { baseEnv with handler := unchangedHandler } goodReq
    (some ([("user", "42")], "oldid")) [StoreCmd.get "oldid"]
    { body := "resp", setCookies := [] } rfl rfl
  exact ⟨rfl, rfl, rfl, h.1, h.2⟩

/-- C5: when the update phase's SET fails (redis error or transport error),
the request ends in an internal-server-error (500) outcome and no response
— hence no `Set-Cookie` — is produced, even when a fresh cookie had been
prepared. -/
theorem update_store_failure (inner : Inner) (env : Env) (req : Request)
    (st : Option (SessionState × String)) (cmds : List StoreCmd)
    (newState : SessionState) (res : Response) (body : String)
    (hl : inner.load env req = (Except.ok st, cmds))
    (hh : env.handler (st.map (·.1)) = (some newState, res))
    (he : env.codec.encode newState = Except.ok body)
    (hs : env.setReply = SetReply.storeErr
          ∨ env.setReply = SetReply.transportErr) :
    isInternalErrorOutcome (RedisSessionMiddleware.call inner env req).1 = true
    ∧ ∀ r, (RedisSessionMiddleware.call inner env req).1 ≠ Except.ok r := by
  rcases hs with hs | hs <;>
    exact ⟨by simp [RedisSessionMiddleware.call, Inner.update, hl, hh, he, hs,
             isInternalErrorOutcome, SessionError.status],
           by intro r
              simp [RedisSessionMiddleware.call, Inner.update, hl, hh, he, hs]⟩

/-- C5 witness: no usable cookie, handler changes the state, SET fails:
500 outcome, no response. -/
theorem update_store_failure_witness :
    Inner.load testInner { baseEnv with setReply := SetReply.storeErr } emptyReq
        = (Except.ok none, [])
    ∧ changedHandler none
        = (some [("user", "42")], { body := "resp", setCookies := [] })
    ∧ okCodec.encode [("user", "42")] = Except.ok "body"
    ∧ isInternalErrorOutcome (RedisSessionMiddleware.call testInner
        { baseEnv with setReply := SetReply.storeErr } emptyReq).1 = true := by
  have h := update_store_failure testInner
    { baseEnv with setReply := SetReply.storeErr } emptyReq none []
    [("user", "42")] { body := "resp", setCookies := [] } "body"
    rfl rfl rfl (Or.inl rfl)
  exact ⟨rfl, rfl, rfl, h.1⟩

/-- C6: when the changed state cannot be serialized, the request ends in an
internal-server-error (500) outcome and no store SET is sent. -/
theorem encode_error_no_write (inner : Inner) (env : Env) (req : Request)
    (st : Option (SessionState × String)) (cmds : List StoreCmd)
    (newState : SessionState) (res : Response)
    (hl : inner.load env req = (Except.ok st, cmds))
    (hh : env.handler (st.map (·.1)) = (some newState, res))
    (he : env.codec.encode newState = Except.error ()) :
    isInternalErrorOutcome (RedisSessionMiddleware.call inner env req).1 = true
    ∧ ∀ cmd ∈ (RedisSessionMiddleware.call inner env req).2,
        cmd.isSet = false := by
  constructor
  · simp [RedisSessionMiddleware.call, Inner.update, hl, hh, he,
      isInternalErrorOutcome, SessionError.status]
  · intro cmd hcmd
    have hns := load_trace_no_set inner env req
    rw [hl] at hns
    simp [RedisSessionMiddleware.call, Inner.update, hl, hh, he] at hcmd
    exact hns cmd hcmd

/-- C6 witness: a codec whose encode fails: 500 outcome, no SET in the
trace. -/
theorem encode_error_no_write_witness :
    Inner.load testInner { baseEnv with codec := badEncodeCodec } emptyReq
        = (Except.ok none, [])
    ∧ changedHandler none
        = (some [("user", "42")], { body := "resp", setCookies := [] })
    ∧ badEncodeCodec.encode [("user", "42")] = Except.error ()
    ∧ isInternalErrorOutcome (RedisSessionMiddleware.call testInner
        { baseEnv with codec := badEncodeCodec } emptyReq).1 = true
    ∧ ∀ cmd ∈ (RedisSessionMiddleware.call testInner
        { baseEnv with codec := badEncodeCodec } emptyReq).2,
        cmd.isSet = false := by
  have h := encode_error_no_write testInner
    { baseEnv with codec := badEncodeCodec } emptyReq none []
    [("user", "42")] { body := "resp", setCookies := [] } rfl rfl rfl
  exact ⟨rfl, rfl, rfl, h.1, h.2⟩

/-- C7: when the cookie verified but the load phase's GET fails (redis
error or transport error), the request ends in an internal-server-error
(500) outcome and the downstream handler is never invoked (the outcome is
independent of the handler). -/
theorem load_store_error_propagates (inner : Inner) (env : Env)
    (req : Request) (c : RawCookie) (v : String)
    (hc : cookieLookup inner req = some c)
    (hv : verifySigned inner.key c = some v)
    (hg : env.getReply = GetReply.storeErr
          ∨ env.getReply = GetReply.transportErr) :
    isInternalErrorOutcome (RedisSessionMiddleware.call inner env req).1 = true
    ∧ ∀ h2, RedisSessionMiddleware.call inner { env with handler := h2 } req
        = RedisSessionMiddleware.call inner env req := by
  rcases hg with hg | hg <;>
    exact ⟨by simp [RedisSessionMiddleware.call, Inner.load, hc, hv, hg,
             isInternalErrorOutcome, SessionError.status],
           by intro h2
              simp [RedisSessionMiddleware.call, Inner.load, hc, hv, hg]⟩

/-- C7 witness: signed cookie, GET fails at the store: 500 outcome,
identical result under a different handler. -/
theorem load_store_error_propagates_witness :
    cookieLookup testInner goodReq = some goodCookie
    ∧ verifySigned testInner.key goodCookie = some "oldid"
    ∧ isInternalErrorOutcome (RedisSessionMiddleware.call testInner
        { baseEnv with getReply := GetReply.storeErr } goodReq).1 = true
    ∧ RedisSessionMiddleware.call testInner
        { { baseEnv with getReply := GetReply.storeErr }
          with handler := unchangedHandler } goodReq
      = RedisSessionMiddleware.call testInner
          { baseEnv with getReply := GetReply.storeErr } goodReq := by
  have h := load_store_error_propagates testInner
    { baseEnv with getReply := GetReply.storeErr } goodReq goodCookie "oldid"
    (by decide) (by decide) (Or.inl rfl)
  exact ⟨by decide, by decide, h.1, h.2 unchangedHandler⟩

/-- C8: a missing, unparseable or signature-failing cookie makes the load
phase behave exactly as for a request with no cookie at all — no session,
no retained id, no error, no store traffic — the whole request is handled
identically, and a change mints a brand-new id for the SET rather than
reusing the old cookie value. -/
theorem invalid_cookie_like_no_cookie (inner : Inner) (env : Env)
    (req : Request)
    (h : noUsableCookie inner req = true) :
    inner.load env req = (Except.ok none, [])
    ∧ inner.load env req = inner.load env { cookies := some [] }
    ∧ RedisSessionMiddleware.call inner env req
        = RedisSessionMiddleware.call inner env { cookies := some [] }
    ∧ ∀ st res body, env.handler none = (some st, res) →
        env.codec.encode st = Except.ok body →
        (RedisSessionMiddleware.call inner env req).2
          = [StoreCmd.set (mintId env.rng) body inner.ttl] := by
  have hl := noUsableCookie_load inner env req h
  have hl0 : inner.load env { cookies := some [] }
      = (Except.ok none, []) := by
    simp [Inner.load, cookieLookup]
  refine ⟨hl, by rw [hl, hl0], ?_, ?_⟩
  · simp [RedisSessionMiddleware.call, hl, hl0]
  · intro st res body hh he
    simp [RedisSessionMiddleware.call, Inner.update, hl, hh, he]

/-- C8 witness: a cookie of the configured name with a bad signature tag is
treated as no cookie; with a changed session the SET goes under the minted
id, not `"oldid"`. -/
theorem invalid_cookie_like_no_cookie_witness :
    noUsableCookie testInner { cookies := some [badTagCookie] } = true
    ∧ Inner.load testInner baseEnv { cookies := some [badTagCookie] }
        = (Except.ok none, [])
    ∧ RedisSessionMiddleware.call testInner baseEnv
        { cookies := some [badTagCookie] }
      = RedisSessionMiddleware.call testInner baseEnv { cookies := some [] }
    ∧ (RedisSessionMiddleware.call testInner baseEnv
        { cookies := some [badTagCookie] }).2
        = [StoreCmd.set (mintId testRng) "body" "7200"]
    ∧ mintId testRng ≠ "oldid" := by
  have h := invalid_cookie_like_no_cookie testInner baseEnv
    { cookies := some [badTagCookie] } (by decide)
  exact ⟨by decide, h.1, h.2.2.1,
    h.2.2.2 [("user", "42")] { body := "resp", setCookies := [] } "body"
      rfl rfl,
    by decide⟩

/-- C1 counterexample: a request with a correctly signed cookie carrying
`"oldid"` whose stored payload is absent, with a handler that reports a
change and an acking store.  Contrary to the claim, the load phase does
not retain the id (`Except.ok none`), the SET goes under the freshly
minted id — which differs from `"oldid"` — and a new `Set-Cookie` header
is emitted. -/
theorem retained_id_counterexample :
    (Inner.load testInner { baseEnv with getReply := GetReply.absent }
        goodReq).1 = Except.ok none
    ∧ (RedisSessionMiddleware.call testInner
        { baseEnv with getReply := GetReply.absent } goodReq).2
        = [StoreCmd.get "oldid", StoreCmd.set (mintId testRng) "body" "7200"]
    ∧ mintId testRng ≠ "oldid"
    ∧ (RedisSessionMiddleware.call testInner
        { baseEnv with getReply := GetReply.absent } goodReq).1
        = Except.ok
            { body := "resp"
              setCookies :=
                [signCookie testKey (freshCookie testInner (mintId testRng))] } := by
  exact ⟨rfl, rfl, by decide, rfl⟩

/-- C1 (amended): for every request that carried a cookie with the
configured name whose signature verified, but whose stored payload was
either absent or failed to decode, the load phase yields no session and
discards the existing id; consequently, if the handler then reports a
change, the update phase mints a fresh id, writes under it, and on SET
success emits a new `Set-Cookie` carrying the signed fresh id. -/
theorem decode_fail_mints_new_id (inner : Inner) (env : Env) (req : Request)
    (c : RawCookie) (v : String)
    (hc : cookieLookup inner req = some c)
    (hv : verifySigned inner.key c = some v)
    (hg : env.getReply = GetReply.absent
          ∨ ∃ s, env.getReply = GetReply.found s ∧ env.codec.decode s = none) :
    inner.load env req = (Except.ok none, [StoreCmd.get v])
    ∧ ∀ st res body, env.handler none = (some st, res) →
        env.codec.encode st = Except.ok body →
        (RedisSessionMiddleware.call inner env req).2
            = [StoreCmd.get v, StoreCmd.set (mintId env.rng) body inner.ttl]
        ∧ (env.setReply = SetReply.ack →
            (RedisSessionMiddleware.call inner env req).1
              = Except.ok { res with setCookies := res.setCookies
                  ++ [signCookie inner.key
                        (freshCookie inner (mintId env.rng))] }) := by
  have hl : inner.load env req = (Except.ok none, [StoreCmd.get v]) := by
    rcases hg with hg | ⟨s, hg, hd⟩
    · simp [Inner.load, hc, hv, hg]
    · simp [Inner.load, hc, hv, hg, hd]
  refine ⟨hl, ?_⟩
  intro st res body hh he
  constructor
  · simp [RedisSessionMiddleware.call, Inner.update, hl, hh, he]
  · intro hs
    simp [RedisSessionMiddleware.call, Inner.update, hl, hh, he, hs]

/-- C1 (amended) witness: signed cookie `"oldid"`, payload absent, handler
changes the state: the id is dropped at load and the SET goes under the
minted id. -/
theorem decode_fail_mints_new_id_witness :
    cookieLookup testInner goodReq = some goodCookie
    ∧ verifySigned testInner.key goodCookie = some "oldid"
    ∧ ({ baseEnv with getReply := GetReply.absent } : Env).getReply
        = GetReply.absent
    ∧ Inner.load testInner { baseEnv with getReply := GetReply.absent } goodReq
        = (Except.ok none, [StoreCmd.get "oldid"])
    ∧ (RedisSessionMiddleware.call testInner
        { baseEnv with getReply := GetReply.absent } goodReq).2
        = [StoreCmd.get "oldid",
           StoreCmd.set (mintId testRng) "body" "7200"] := by
  have h := decode_fail_mints_new_id testInner
    { baseEnv with getReply := GetReply.absent } goodReq goodCookie "oldid"
    (by decide) (by decide) (Or.inl rfl)
  exact ⟨by decide, by decide, rfl, h.1,
    (h.2 [("user", "42")] { body := "resp", setCookies := [] } "body"
      rfl rfl).1⟩

end ActixRedisCluster
